import Mathlib

/-!
Verification of the football decision-engine core.

This file gives a shallow embedding, over the real numbers, of the decision
engine found in `src/decision_engine/engine.py` and of the action executor and
decision loop found in `src/decision_engine/action_executor.py`, and proves a
collection of properties of that code.

Conventions of the embedding:
* Python floats are modelled as real numbers (`ℝ`); `float('inf')` is modelled
  by working in `EReal` where the code can produce infinities.
* `np.sqrt`, `np.exp`, `np.cos`, `np.arctan2` and `** 0.5` (on non-negative
  arguments) are modelled by `Real.sqrt`, `Real.exp`, `Real.cos` and an
  explicit `atan2`.
* Python's stable `sort` / `sorted` are modelled by `List.mergeSort`, which is
  stable and uses the same merge-sort discipline.
* Python `int()` (truncation toward zero) is modelled by `pyInt`.
-/

open scoped Classical

noncomputable section

namespace Football

/-- Truncation toward zero, the behaviour of Python's `int()` on floats. -/
def pyInt (q : ℝ) : ℤ := if 0 ≤ q then ⌊q⌋ else ⌈q⌉

/-- Euclidean distance in the plane: every occurrence of
`np.sqrt((bx - ax)**2 + (by - ay)**2)` in `engine.py`. -/
def planeDist (a b : ℝ × ℝ) : ℝ := Real.sqrt ((b.1 - a.1) ^ 2 + (b.2 - a.2) ^ 2)

/-- The four-quadrant arctangent `np.arctan2 y x`. -/
def atan2 (y x : ℝ) : ℝ :=
  if 0 < x then Real.arctan (y / x)
  else if x < 0 then
    (if 0 ≤ y then Real.arctan (y / x) + Real.pi else Real.arctan (y / x) - Real.pi)
  else if 0 < y then Real.pi / 2
  else if y < 0 then -(Real.pi / 2)
  else 0

/-- Pitch length in meters (`PITCH_LENGTH` in `engine.py`). -/
def PITCH_LENGTH : ℝ := 105

/-- Pitch width in meters (`PITCH_WIDTH` in `engine.py`). -/
def PITCH_WIDTH : ℝ := 68

/-- `PlayerState` of `engine.py`. -/
structure PlayerState where
  player_id : ℤ
  team : ℤ := 0
  position : ℝ × ℝ
  velocity : ℝ × ℝ := (0, 0)
  speed : ℝ := 0
  max_speed : ℝ := 8
  reaction_time : ℝ := 0.3
  facing_angle : ℝ := 0
  is_goalkeeper : Bool := false

/-- `CoverageZoneModel.time_to_reach` of `engine.py`: reaction time plus
distance over top speed, or `float('inf')` when the top speed is not
positive. -/
def timeToReach (point : ℝ × ℝ) (player : PlayerState) : EReal :=
  if player.max_speed ≤ 0 then ⊤
  else ((player.reaction_time + planeDist player.position point / player.max_speed : ℝ) : EReal)

/-- The raw (pre-boost, pre-clip) cell value assigned by
`XGZoneModel._create_xg_grid` to row `j`, column `i`. -/
def xgRaw (j i : ℕ) : ℝ :=
  let x : ℝ := ((i : ℝ) / 12) * PITCH_LENGTH - PITCH_LENGTH / 2
  let y : ℝ := ((j : ℝ) / 8) * PITCH_WIDTH - PITCH_WIDTH / 2
  let goalX : ℝ := PITCH_LENGTH / 2
  let distance : ℝ := Real.sqrt ((goalX - x) ^ 2 + (0 - y) ^ 2)
  let angle : ℝ := |atan2 y (goalX - x)|
  let baseXg : ℝ := Real.exp (-distance / 20) * 0.5
  let angleFactor : ℝ := Real.sqrt (Real.cos angle)
  let centralFactor : ℝ := 1 - (|y| / (PITCH_WIDTH / 2)) * 0.3
  baseXg * angleFactor * centralFactor

/-- One cell of the grid built by `XGZoneModel._create_xg_grid`: the raw value,
the penalty-box boost (`xg[2:6, 10:] *= 1.8`), the six-yard-box boost
(`xg[3:5, 11:] *= 1.5`), and the final `np.clip(xg, 0.01, 0.45)`. -/
def xgCell (j i : ℕ) : ℝ :=
  let v0 := xgRaw j i
  let v1 := if 2 ≤ j ∧ j < 6 ∧ 10 ≤ i then v0 * 1.8 else v0
  let v2 := if 3 ≤ j ∧ j < 5 ∧ 11 ≤ i then v1 * 1.5 else v1
  min 0.45 (max 0.01 v2)

/-- Column index computed by `XGZoneModel.get_xg`:
`np.clip(int((x + L/2) / L * 12), 0, 11)`. -/
def gridIndexX (x : ℝ) : ℤ :=
  min 11 (max 0 (pyInt ((x + PITCH_LENGTH / 2) / PITCH_LENGTH * 12)))

/-- Row index computed by `XGZoneModel.get_xg`:
`np.clip(int((y + W/2) / W * 8), 0, 7)`. -/
def gridIndexY (y : ℝ) : ℤ :=
  min 7 (max 0 (pyInt ((y + PITCH_WIDTH / 2) / PITCH_WIDTH * 8)))

/-- `XGZoneModel.get_xg` of `engine.py`. -/
def getXg (position : ℝ × ℝ) : ℝ :=
  xgCell (gridIndexY position.2).toNat (gridIndexX position.1).toNat

theorem xgCell_bounds (j i : ℕ) : 0.01 ≤ xgCell j i ∧ xgCell j i ≤ 0.45 := by
  unfold xgCell
  constructor
  · exact le_min (by norm_num) (le_max_left _ _)
  · exact min_le_left _ _

/-- C7: `XGZoneModel.get_xg` is total: for every real position, also outside
the pitch, the computed grid indices are clamped into `[0,11] × [0,7]`, and
the returned value lies in `[0.01, 0.45]`. -/
theorem C7_getXg_total_bounded (x y : ℝ) :
    0 ≤ gridIndexX x ∧ gridIndexX x ≤ 11 ∧
    0 ≤ gridIndexY y ∧ gridIndexY y ≤ 7 ∧
    0.01 ≤ getXg (x, y) ∧ getXg (x, y) ≤ 0.45 := by
  refine ⟨?_, ?_, ?_, ?_, (xgCell_bounds _ _).1, (xgCell_bounds _ _).2⟩
  · exact le_min (by norm_num) (le_max_left _ _)
  · exact min_le_left _ _
  · exact le_min (by norm_num) (le_max_left _ _)
  · exact min_le_left _ _

/-- C8: `CoverageZoneModel.time_to_reach` equals
`reaction_time + distance / max_speed`, is `+∞` when `max_speed ≤ 0`, is
monotone non-decreasing in the distance to the target point for a fixed
player, and monotone non-increasing in the player's top speed (for positive
top speeds). -/
theorem C8_timeToReach_spec (p : PlayerState) (q q1 q2 : ℝ × ℝ) (s1 s2 : ℝ) :
    (p.max_speed ≤ 0 → timeToReach q p = ⊤) ∧
    (0 < p.max_speed →
      timeToReach q p =
        ((p.reaction_time + planeDist p.position q / p.max_speed : ℝ) : EReal)) ∧
    (planeDist p.position q1 ≤ planeDist p.position q2 →
      timeToReach q1 p ≤ timeToReach q2 p) ∧
    (0 < s1 → s1 ≤ s2 →
      timeToReach q { p with max_speed := s2 } ≤ timeToReach q { p with max_speed := s1 }) := by
  refine ⟨fun h => by simp [timeToReach, h], fun h => by simp [timeToReach, not_le.2 h], ?_, ?_⟩
  · intro hd
    unfold timeToReach
    by_cases h : p.max_speed ≤ 0
    · simp [h]
    · have hpos : 0 < p.max_speed := not_le.1 h
      simp only [h, if_false, EReal.coe_le_coe_iff]
      exact add_le_add_left ((div_le_div_iff_of_pos_right hpos).2 hd) _
  · intro h1 h12
    have h2 : 0 < s2 := lt_of_lt_of_le h1 h12
    unfold timeToReach
    simp only [not_le.2 h1, not_le.2 h2, if_false, EReal.coe_le_coe_iff]
    exact add_le_add_left
      (div_le_div_of_nonneg_left (Real.sqrt_nonneg _) h1 h12) _

/-- `InterceptionModel.ball_speed_ground` default. -/
def ballSpeedGround : ℝ := 15

/-- `InterceptionModel.ball_speed_air` default. -/
def ballSpeedAir : ℝ := 20

/-- `num_samples = max(int(pass_length / 2), 5)` in
`InterceptionModel.interception_probability`. -/
def numSamples (passLength : ℝ) : ℕ := max (pyInt (passLength / 2)).toNat 5

/-- The sample point `pass_start + (i / num_samples) * pass_vector`. -/
def samplePoint (ps pe : ℝ × ℝ) (n i : ℕ) : ℝ × ℝ :=
  (ps.1 + ((i : ℝ) / n) * (pe.1 - ps.1), ps.2 + ((i : ℝ) / n) * (pe.2 - ps.2))

/-- `min(defender_times)` over a defender list, `+∞` when empty (the code only
evaluates this for a non-empty list, where the fold agrees with Python's
`min`). -/
def minDefenderTime (point : ℝ × ℝ) (defenders : List PlayerState) : EReal :=
  (defenders.map (timeToReach point)).foldr min ⊤

/-- `time_advantage = ball_time - min_defender_time` at sample `i`. -/
def sampleAdvantage (ps pe : ℝ × ℝ) (defenders : List PlayerState) (ballSpeed : ℝ)
    (n i : ℕ) : EReal :=
  let ballTime : ℝ := ((i : ℝ) / n) * planeDist ps pe / ballSpeed
  (ballTime : EReal) - minDefenderTime (samplePoint ps pe n i) defenders

/-- `min_time_advantage`: the minimum of the sample advantages, starting from
`float('inf')`. -/
def minTimeAdvantage (ps pe : ℝ × ℝ) (defenders : List PlayerState) (ballSpeed : ℝ) : EReal :=
  let n := numSamples (planeDist ps pe)
  ((List.range (n + 1)).map (sampleAdvantage ps pe defenders ballSpeed n)).foldr min ⊤

/-- `InterceptionModel.interception_probability` of `engine.py`. The separate
`m = ⊥` case mirrors Python's `max(0.05, 0.1 + (-inf) * 0.1) = 0.05` (the
minimum advantage is `-inf` exactly when every defender's time is infinite at
some sample). -/
def interceptionProbability (ps pe : ℝ × ℝ) (defenders : List PlayerState)
    (isAerial : Bool := false) : ℝ :=
  if defenders = [] then 0
  else
    let ballSpeed := if isAerial then ballSpeedAir else ballSpeedGround
    if planeDist ps pe < 0.1 then 0
    else
      let m := minTimeAdvantage ps pe defenders ballSpeed
      if ((0.5 : ℝ) : EReal) < m then 0.9
      else if ((0 : ℝ) : EReal) < m then 0.5 + m.toReal * 0.8
      else if ((-0.5 : ℝ) : EReal) < m then 0.3 + m.toReal * 0.4
      else if m = ⊥ then 0.05
      else max 0.05 (0.1 + m.toReal * 0.1)

theorem interceptionProbability_bounds (ps pe : ℝ × ℝ) (defenders : List PlayerState)
    (isAerial : Bool) :
    0 ≤ interceptionProbability ps pe defenders isAerial ∧
    interceptionProbability ps pe defenders isAerial ≤ 0.9 := by
  unfold interceptionProbability
  by_cases h0 : defenders = []
  · simp [h0]; norm_num
  · simp only [h0, if_false]
    by_cases h1 : planeDist ps pe < 0.1
    · simp [h1]; norm_num
    · simp only [h1, if_false]
      generalize minTimeAdvantage ps pe defenders
        (if isAerial = true then ballSpeedAir else ballSpeedGround) = m
      induction m with
      | h_bot =>
        split_ifs with c1 c2 c3 c4
        · norm_num
        · exact absurd c2 (not_lt_bot)
        · exact absurd c3 (not_lt_bot)
        · norm_num
        · exact absurd rfl c4
      | h_real r =>
        split_ifs with c1 c2 c3 c4
        · norm_num
        · rw [EReal.coe_lt_coe_iff] at c2
          have hr : r ≤ 0.5 := by
            by_contra hgt
            exact c1 (EReal.coe_lt_coe_iff.2 (by linarith))
          rw [EReal.toReal_coe]
          constructor <;> nlinarith
        · rw [EReal.coe_lt_coe_iff] at c3
          have hr : r ≤ 0 := by
            by_contra hgt
            exact c2 (EReal.coe_lt_coe_iff.2 (by linarith))
          rw [EReal.toReal_coe]
          constructor <;> nlinarith
        · exact absurd c4 (EReal.coe_ne_bot r)
        · have hr : r ≤ -0.5 := EReal.coe_le_coe_iff.1 (not_lt.1 c3)
          rw [EReal.toReal_coe]
          constructor
          · exact le_trans (by norm_num) (le_max_left _ _)
          · exact max_le (by norm_num) (by nlinarith)
      | h_top =>
        split_ifs with c1
        · norm_num
        all_goals exact absurd (EReal.coe_lt_top (0.5 : ℝ)) c1

/-- `PassSuccessModel._distance_to_probability`: the DISTANCE_DECAY table
`{5: 0.95, 10: 0.90, 15: 0.85, 20: 0.78, 25: 0.70, 30: 0.62, 35: 0.55,
40: 0.48}` with the two boundary cases and linear interpolation in between
(the loop over the fixed table is unrolled; the `0.5` fallthrough is the
code's unreachable default). -/
def distanceToProbability (distance : ℝ) : ℝ :=
  if distance ≤ 5 then 0.95
  else if 40 ≤ distance then 0.48 * 0.8
  else if distance < 10 then 0.95 + (distance - 5) / 5 * (0.90 - 0.95)
  else if distance < 15 then 0.90 + (distance - 10) / 5 * (0.85 - 0.90)
  else if distance < 20 then 0.85 + (distance - 15) / 5 * (0.78 - 0.85)
  else if distance < 25 then 0.78 + (distance - 20) / 5 * (0.70 - 0.78)
  else if distance < 30 then 0.70 + (distance - 25) / 5 * (0.62 - 0.70)
  else if distance < 35 then 0.62 + (distance - 30) / 5 * (0.55 - 0.62)
  else if distance < 40 then 0.55 + (distance - 35) / 5 * (0.48 - 0.55)
  else 0.5

theorem distanceToProbability_bounds (d : ℝ) :
    0.384 ≤ distanceToProbability d ∧ distanceToProbability d ≤ 0.95 := by
  unfold distanceToProbability
  split_ifs with c1 c2 c3 c4 c5 c6 c7 c8 c9 <;>
    constructor <;> nlinarith

/-- `PassSuccessModel.success_probability` of `engine.py`: distance decay ×
pressure penalty × forward penalty × interception discount, clipped to
`[0.05, 0.98]`. -/
def passSuccessProbability (passerPos targetPos : ℝ × ℝ) (defenders : List PlayerState)
    (passerPressure : ℝ) (isForward : Bool) : ℝ :=
  let distance := planeDist passerPos targetPos
  let baseProb := distanceToProbability distance
  let pressureFactor := 1 - passerPressure * 0.25
  let directionFactor : ℝ := if isForward then 0.9 else 1.0
  let interceptionProb := interceptionProbability passerPos targetPos defenders
  let successProb := baseProb * pressureFactor * directionFactor * (1 - interceptionProb * 0.7)
  min 0.98 (max 0.05 successProb)

theorem passSuccessProbability_bounds (passerPos targetPos : ℝ × ℝ)
    (defenders : List PlayerState) (passerPressure : ℝ) (isForward : Bool)
    (_hp0 : 0 ≤ passerPressure) (hp1 : passerPressure ≤ 1) :
    0.095 ≤ passSuccessProbability passerPos targetPos defenders passerPressure isForward ∧
    passSuccessProbability passerPos targetPos defenders passerPressure isForward ≤ 0.98 := by
  unfold passSuccessProbability
  obtain ⟨hb1, hb2⟩ := distanceToProbability_bounds (planeDist passerPos targetPos)
  obtain ⟨hi1, hi2⟩ := interceptionProbability_bounds passerPos targetPos defenders false
  refine ⟨?_, min_le_left _ _⟩
  have hdf : (0.9 : ℝ) ≤ (if isForward then (0.9 : ℝ) else 1.0) := by
    split_ifs <;> norm_num
  have hdf1 : (if isForward then (0.9 : ℝ) else 1.0) ≤ 1 := by
    split_ifs <;> norm_num
  have hp75 : (0.75 : ℝ) ≤ 1 - passerPressure * 0.25 := by linarith
  have hq1 : (0.37 : ℝ) ≤
      1 - interceptionProbability passerPos targetPos defenders false * 0.7 := by
    nlinarith
  have hbp : (0.288 : ℝ) ≤ distanceToProbability (planeDist passerPos targetPos) *
      (1 - passerPressure * 0.25) := by
    nlinarith [mul_nonneg (sub_nonneg.2 hb1) (sub_nonneg.2 hp75)]
  have hbp0 : (0 : ℝ) ≤ distanceToProbability (planeDist passerPos targetPos) *
      (1 - passerPressure * 0.25) := by linarith
  have h3 : (0.2592 : ℝ) ≤ distanceToProbability (planeDist passerPos targetPos) *
      (1 - passerPressure * 0.25) * (if isForward then (0.9 : ℝ) else 1.0) :=
    le_trans (by norm_num) (mul_le_mul hbp hdf (by norm_num) hbp0)
  have hraw : 0.095 ≤ distanceToProbability (planeDist passerPos targetPos) *
      (1 - passerPressure * 0.25) * (if isForward then (0.9 : ℝ) else 1.0) *
      (1 - interceptionProbability passerPos targetPos defenders false * 0.7) :=
    le_trans (by norm_num)
      (mul_le_mul h3 hq1 (by norm_num) (le_trans (by norm_num) h3))
  exact le_min (by norm_num) (le_trans hraw (le_max_right _ _))

/-- `DefensiveGap` of `engine.py`; `exploitable` is kept as a proposition and
`time_to_close` in `EReal` because it comes from `time_to_reach`. -/
structure DefensiveGap where
  location : ℝ × ℝ
  size : ℝ
  time_to_close : EReal
  between_players : ℤ × ℤ
  exploitable : Prop
  xg_if_exploited : ℝ

/-- `ball_arrival_time` used by `DefensiveGapDetector._analyze_gap`. -/
def ballArrivalTime : ℝ := 0.8

/-- `DefensiveGapDetector._analyze_gap` of `engine.py`, parameterised by
`min_gap_size` and `exploitable_threshold`. -/
def analyzeGap (minGapSize exploitableThreshold : ℝ) (d1 d2 : PlayerState) :
    Option DefensiveGap :=
  let gapCenter : ℝ × ℝ :=
    ((d1.position.1 + d2.position.1) / 2, (d1.position.2 + d2.position.2) / 2)
  let gapSize := planeDist d1.position d2.position
  if gapSize < minGapSize then none
  else
    let timeToClose := min (timeToReach gapCenter d1) (timeToReach gapCenter d2)
    some { location := gapCenter
           size := gapSize
           time_to_close := timeToClose
           between_players := (d1.player_id, d2.player_id)
           exploitable := ((ballArrivalTime + exploitableThreshold : ℝ) : EReal) < timeToClose
           xg_if_exploited := getXg gapCenter }

/-- The midpoint used by `_analyze_gap` for a pair of defenders. -/
def gapMidpoint (d1 d2 : PlayerState) : ℝ × ℝ :=
  ((d1.position.1 + d2.position.1) / 2, (d1.position.2 + d2.position.2) / 2)

/-- C6: for a pair of adjacent defenders, `_analyze_gap` emits a gap iff their
separation is at least `min_gap_size`, and the emitted gap is exploitable iff
the minimum of the two defenders' times to reach the midpoint exceeds the
fixed ball-arrival estimate `0.8` plus `exploitable_threshold` (with the
defaults `min_gap_size = 6` and `exploitable_threshold = 1`, i.e. `1.8 s`). -/
theorem C6_analyzeGap_spec (minGapSize exploitableThreshold : ℝ) (d1 d2 : PlayerState) :
    ((analyzeGap minGapSize exploitableThreshold d1 d2).isSome ↔
      minGapSize ≤ planeDist d1.position d2.position) ∧
    (∀ g, analyzeGap minGapSize exploitableThreshold d1 d2 = some g →
      (g.exploitable ↔
        ((ballArrivalTime + exploitableThreshold : ℝ) : EReal) <
          min (timeToReach (gapMidpoint d1 d2) d1) (timeToReach (gapMidpoint d1 d2) d2))) ∧
    ((ballArrivalTime + 1 : ℝ) : EReal) = ((1.8 : ℝ) : EReal) := by
  refine ⟨?_, ?_, by norm_num [ballArrivalTime]⟩
  · unfold analyzeGap
    by_cases h : planeDist d1.position d2.position < minGapSize
    · simp [h, not_le.2 h]
    · simp [h, not_lt.1 h]
  · intro g hg
    unfold analyzeGap at hg
    by_cases h : planeDist d1.position d2.position < minGapSize
    · simp [h] at hg
    · simp only [h, if_false, Option.some.injEq] at hg
      subst hg
      exact Iff.rfl

/-- Python's `min` over a list of reals (callers guard against the empty
list, on which Python raises; the embedding returns `0` there). -/
def listMinR : List ℝ → ℝ
  | [] => 0
  | x :: xs => xs.foldl min x

/-- Defenders sorted by x position (`sorted(defenders, key=lambda p:
p.position[0])`, a stable sort). -/
def sortByX (defenders : List PlayerState) : List PlayerState :=
  defenders.mergeSort (fun a b => decide (a.position.1 ≤ b.position.1))

/-- `DefensiveGapDetector._detect_vertical_gaps` of `engine.py`. -/
def verticalGaps (defenders : List PlayerState) : List DefensiveGap :=
  if defenders.length < 4 then []
  else
    let sortedByX := sortByX defenders
    let xs := sortedByX.map (fun p => p.position.1)
    let scan := ((xs.zip xs.tail).enum).foldl
      (fun acc p => if acc.1 < p.2.2 - p.2.1 then (p.2.2 - p.2.1, p.1) else acc)
      ((0 : ℝ), (0 : ℕ))
    let maxGap := scan.1
    let gapIndex := scan.2
    if 10 < maxGap then
      let backLine := sortedByX.take (gapIndex + 1)
      let midLine := sortedByX.drop (gapIndex + 1)
      let backAvgX := (backLine.map (fun p => p.position.1)).sum / backLine.length
      let midAvgX := (midLine.map (fun p => p.position.1)).sum / midLine.length
      let gapX := (backAvgX + midAvgX) / 2
      ([-15, 0, 15] : List ℝ).filterMap (fun yOffset =>
        let gapCenter : ℝ × ℝ := (gapX, yOffset)
        let timeToClose := minDefenderTime gapCenter defenders
        if ((1 : ℝ) : EReal) < timeToClose then
          some { location := gapCenter
                 size := maxGap
                 time_to_close := timeToClose
                 between_players := (-1, -1)
                 exploitable := True
                 xg_if_exploited := getXg gapCenter }
        else none)
    else []

/-- `DefensiveGapDetector.detect_gaps` of `engine.py`: lateral gaps between
adjacent defenders of the x-sorted line, then vertical gaps, sorted
descending by zone value. -/
def detectGaps (minGapSize exploitableThreshold : ℝ)
    (defenders : List PlayerState) : List DefensiveGap :=
  if defenders.length < 2 then []
  else
    let sorted := sortByX defenders
    let lateral := (sorted.zip sorted.tail).filterMap
      (fun p => analyzeGap minGapSize exploitableThreshold p.1 p.2)
    let gaps := lateral ++ verticalGaps defenders
    gaps.mergeSort (fun a b => decide (b.xg_if_exploited ≤ a.xg_if_exploited))

/-- `ShotModel.GOAL_WIDTH`. -/
def GOAL_WIDTH : ℝ := 7.32

/-- `ShotModel.GOAL_X`. -/
def GOAL_X : ℝ := PITCH_LENGTH / 2

/-- `ShotModel._position_xg` of `engine.py`. -/
def positionXg (pos : ℝ × ℝ) : ℝ :=
  let x := pos.1
  let y := pos.2
  let distance := Real.sqrt ((GOAL_X - x) ^ 2 + (0 - y) ^ 2)
  let angleLeft := atan2 (-(GOAL_WIDTH / 2) - y) (GOAL_X - x)
  let angleRight := atan2 (GOAL_WIDTH / 2 - y) (GOAL_X - x)
  let goalAngle := |angleRight - angleLeft|
  let base : ℝ :=
    if distance < 5 then 0.6
    else if distance < 11 then 0.4 * Real.exp (-distance / 15)
    else if distance < 16.5 then 0.2 * Real.exp (-distance / 20)
    else if distance < 25 then 0.08 * Real.exp (-distance / 30)
    else 0.03 * Real.exp (-distance / 40)
  let angleFactor := min 1.0 (goalAngle / 0.5)
  let centralFactor := 1.0 - (|y| / (GOAL_WIDTH * 2)) * 0.4
  min 0.75 (max 0.01 (base * angleFactor * centralFactor))

theorem positionXg_bounds (pos : ℝ × ℝ) :
    0.01 ≤ positionXg pos ∧ positionXg pos ≤ 0.75 := by
  unfold positionXg
  exact ⟨le_min (by norm_num) (le_max_left _ _), min_le_left _ _⟩

/-- `ShotModel._defender_blocking` of `engine.py`: accumulate block
probability multiplicatively over non-goalkeeper defenders in the shot
corridor, clipped to `[0, 0.9]`. -/
def defenderBlocking (shooterPos : ℝ × ℝ) (defenders : List PlayerState) : ℝ :=
  if defenders = [] then 0
  else
    let x := shooterPos.1
    let y := shooterPos.2
    let shotVec : ℝ × ℝ := (GOAL_X - x, 0 - y)
    let shotDistance := Real.sqrt (shotVec.1 ^ 2 + shotVec.2 ^ 2)
    if shotDistance < 0.1 then 0
    else
      let sd : ℝ × ℝ := (shotVec.1 / shotDistance, shotVec.2 / shotDistance)
      let total := defenders.foldl (fun acc defender =>
        if defender.is_goalkeeper then acc
        else
          let dv : ℝ × ℝ := (defender.position.1 - x, defender.position.2 - y)
          let dd := Real.sqrt (dv.1 ^ 2 + dv.2 ^ 2)
          if shotDistance < dd then acc
          else
            let projection := dv.1 * sd.1 + dv.2 * sd.2
            if projection < 0 then acc
            else
              let perp := |sd.1 * dv.2 - sd.2 * dv.1|
              let bp0 : ℝ :=
                if perp < 0.5 then 0.7
                else if perp < 1.0 then 0.4
                else if perp < 1.5 then 0.2
                else if perp < 2.0 then 0.1
                else 0
              let bp := bp0 * max 0.3 (1 - projection / shotDistance)
              1 - (1 - acc) * (1 - bp)) 0
      min 0.9 (max 0 total)

/-- `ShotModel._goalkeeper_save` of `engine.py`. -/
def goalkeeperSave (shooterPos : ℝ × ℝ) (goalkeeper : Option PlayerState) : ℝ :=
  match goalkeeper with
  | none => 0
  | some gk =>
    let x := shooterPos.1
    let y := shooterPos.2
    let shotDistance := Real.sqrt ((GOAL_X - x) ^ 2 + y ^ 2)
    let gkToCenter := |gk.position.2|
    let positioningFactor := max 0 (1 - gkToCenter / (GOAL_WIDTH / 2))
    let distanceFactor : ℝ :=
      if shotDistance < 6 then 0.4
      else if shotDistance < 11 then 0.55
      else if shotDistance < 16.5 then 0.65
      else 0.75
    min 0.85 (max 0.1 (distanceFactor * (0.5 + 0.5 * positioningFactor)))

/-- `ShotModel.shot_probability` of `engine.py`: returns
`(final_xg, block_probability, save_probability)` with
`final_xg = base × (1 − block) × (1 − save)`. -/
def shotProbability (shooterPos : ℝ × ℝ) (defenders : List PlayerState)
    (goalkeeper : Option PlayerState) : ℝ × ℝ × ℝ :=
  let baseXg := positionXg shooterPos
  let blockProb := defenderBlocking shooterPos defenders
  let saveProb := goalkeeperSave shooterPos goalkeeper
  (baseXg * (1 - blockProb) * (1 - saveProb), blockProb, saveProb)

/-- `DribbleModel._local_pressure` of `engine.py`. -/
def localPressure (pos : ℝ × ℝ) (defenders : List PlayerState) : ℝ :=
  if defenders = [] then 0
  else
    let closest := listMinR (defenders.map (fun d => planeDist pos d.position))
    if closest < 2 then 0.9
    else if closest < 4 then 0.6
    else if closest < 6 then 0.3
    else if closest < 10 then 0.1
    else 0

/-- `DribbleModel._dribble_success` of `engine.py` (the unused `carrier`
parameter of the Python signature is dropped). -/
def dribbleSuccess (startPos endPos : ℝ × ℝ) (defenders : List PlayerState) : ℝ :=
  let baseSuccess : ℝ := 0.75
  let dribbleTime := planeDist startPos endPos / 5
  let midpoint : ℝ × ℝ := ((startPos.1 + endPos.1) / 2, (startPos.2 + endPos.2) / 2)
  let minPressure := defenders.foldl (fun mp defender =>
    if timeToReach midpoint defender < ((dribbleTime / 2 : ℝ) : EReal) then min mp 0.3
    else if timeToReach endPos defender < ((dribbleTime : ℝ) : EReal) then min mp 0.5
    else if timeToReach endPos defender < ((dribbleTime + 0.5 : ℝ) : EReal) then min mp 0.7
    else mp) 1
  let currentPressure := localPressure startPos defenders
  min 0.9 (max 0.1 (baseSuccess * minPressure * (1 - currentPressure * 0.3)))

/-- The dribble fan directions of `DribbleModel.dribble_options`. -/
def dribbleAngles : List ℝ := [0, Real.pi / 6, -(Real.pi / 6), Real.pi / 3, -(Real.pi / 3)]

/-- Clamp of the dribble target x coordinate (`np.clip(target_x, -L/2+1, L/2-1)`). -/
def clampPitchX (x : ℝ) : ℝ :=
  min (PITCH_LENGTH / 2 - 1) (max (-(PITCH_LENGTH / 2) + 1) x)

/-- Clamp of the dribble target y coordinate. -/
def clampPitchY (y : ℝ) : ℝ :=
  min (PITCH_WIDTH / 2 - 1) (max (-(PITCH_WIDTH / 2) + 1) y)

/-- `DribbleModel.dribble_options` of `engine.py`: the list of
`(target_position, success_probability, xg_at_target)` triples for a fixed
fan of five directions at 5 m. -/
def dribbleOptionsModel (ballPos : ℝ × ℝ) (defenders : List PlayerState) :
    List ((ℝ × ℝ) × ℝ × ℝ) :=
  dribbleAngles.map (fun angle =>
    let target : ℝ × ℝ := (clampPitchX (ballPos.1 + 5 * Real.cos angle),
                           clampPitchY (ballPos.2 + 5 * Real.sin angle))
    (target, dribbleSuccess ballPos target defenders, getXg target))

/-- One defender's pressure score in `ReceiverModel._post_reception_pressure`
(`time_to_reach` minus the `0.5 s` control window, banded). -/
def pressureScore (receiverPos : ℝ × ℝ) (defender : PlayerState) : ℝ :=
  let t := timeToReach receiverPos defender
  if t - ((0.5 : ℝ) : EReal) < ((0.3 : ℝ) : EReal) then 0.9
  else if t - ((0.5 : ℝ) : EReal) < ((0.7 : ℝ) : EReal) then 0.6
  else if t - ((0.5 : ℝ) : EReal) < ((1.2 : ℝ) : EReal) then 0.3
  else 0.1

/-- `ReceiverModel._post_reception_pressure` of `engine.py`. -/
def postReceptionPressure (receiverPos : ℝ × ℝ) (defenders : List PlayerState) : ℝ :=
  if defenders = [] then 0
  else
    let scores := defenders.map (pressureScore receiverPos)
    match scores.mergeSort (fun a b => decide (b ≤ a)) with
    | s0 :: s1 :: _ => s0 * 0.7 + s1 * 0.3
    | [s0] => s0
    | [] => 0

/-- `ReceiverModel.reception_quality` of `engine.py`: returns
`(reception_difficulty, post_reception_pressure, facing_goal)`. -/
def receptionQuality (passerPos : ℝ × ℝ) (receiver : PlayerState)
    (defenders : List PlayerState) : ℝ × ℝ × Prop :=
  let passAngle := atan2 (receiver.position.2 - passerPos.2) (receiver.position.1 - passerPos.1)
  let angleDiff0 := |receiver.facing_angle - (passAngle + Real.pi)|
  let angleDiff := min angleDiff0 (2 * Real.pi - angleDiff0)
  let receptionDifficulty : ℝ :=
    if angleDiff < Real.pi / 4 then 0.1
    else if angleDiff < Real.pi / 2 then 0.3
    else if angleDiff < 3 * Real.pi / 4 then 0.5
    else 0.7
  let goalDirection := atan2 (0 - receiver.position.2) (PITCH_LENGTH / 2 - receiver.position.1)
  let facingGoalDiff0 := |receiver.facing_angle - goalDirection|
  let facingGoalDiff := min facingGoalDiff0 (2 * Real.pi - facingGoalDiff0)
  (receptionDifficulty, postReceptionPressure receiver.position defenders,
    facingGoalDiff < Real.pi / 2)

/-- `DecisionEngine._calculate_pressure` of `engine.py`: mean distance of the
three nearest opponents, inverted and normalised over 15 m. -/
def calcPressure (ballPosition : ℝ × ℝ) (opponents : List PlayerState) : ℝ :=
  if opponents = [] then 0
  else
    let distances := opponents.map (fun o => planeDist ballPosition o.position)
    let closest3 := (distances.mergeSort (fun a b => decide (a ≤ b))).take 3
    let avgDistance := closest3.sum / closest3.length
    max 0 (1 - avgDistance / 15)

theorem calcPressure_bounds (ballPosition : ℝ × ℝ) (opponents : List PlayerState) :
    0 ≤ calcPressure ballPosition opponents ∧ calcPressure ballPosition opponents ≤ 1 := by
  unfold calcPressure
  by_cases h : opponents = []
  · simp [h]
  · simp only [h, if_false]
    constructor
    · exact le_max_left _ _
    · apply max_le (by norm_num)
      have hsum : 0 ≤ (((opponents.map (fun o => planeDist ballPosition o.position)).mergeSort
          (fun a b => decide (a ≤ b))).take 3).sum := by
        apply List.sum_nonneg
        intro a ha
        have ha2 := List.mem_mergeSort.1 (List.mem_of_mem_take ha)
        obtain ⟨o, _, rfl⟩ := List.mem_map.1 ha2
        exact Real.sqrt_nonneg _
      have hdiv : 0 ≤ (((opponents.map (fun o => planeDist ballPosition o.position)).mergeSort
          (fun a b => decide (a ≤ b))).take 3).sum /
          ((((opponents.map (fun o => planeDist ballPosition o.position)).mergeSort
          (fun a b => decide (a ≤ b))).take 3).length : ℝ) :=
        div_nonneg hsum (Nat.cast_nonneg _)
      linarith [div_nonneg hdiv (by norm_num : (0 : ℝ) ≤ 15)]

/-- `ProgressionOption` of `engine.py`. -/
structure ProgressionOption where
  action_type : String
  target_player_id : Option ℤ
  target_position : ℝ × ℝ
  success_probability : ℝ
  interception_probability : ℝ
  xg_current : ℝ
  xg_target : ℝ
  xg_gain : ℝ
  turnover_cost : ℝ
  expected_value : ℝ
  recommendation : String
  receiver_pressure : ℝ := 0
  receiver_facing_goal : Prop := True

/-- `DecisionEngineOutput` of `engine.py`. -/
structure DecisionEngineOutput where
  timestamp : ℝ
  ball_position : ℝ × ℝ
  ball_carrier_id : ℤ
  possession_team : ℤ
  defensive_gaps : List DefensiveGap
  progression_options : List ProgressionOption
  best_option : Option ProgressionOption
  total_options : ℕ
  high_value_options : ℕ
  safe_options : ℕ

/-- `DecisionEngine.ev_threshold_high` default. -/
def evThresholdHigh : ℝ := 0.05

/-- `DecisionEngine.ev_threshold_safe` default. -/
def evThresholdSafe : ℝ := 0.02

/-- `DecisionEngine._get_recommendation` of `engine.py`. -/
def getRecommendation (ev successProb : ℝ) : String :=
  if evThresholdHigh ≤ ev then "HIGH_VALUE"
  else if 0.85 ≤ successProb ∧ 0 ≤ ev then "SAFE"
  else if evThresholdSafe ≤ ev then "MODERATE"
  else if 0 ≤ ev then "LOW_VALUE"
  else "AVOID"

/-- `DecisionEngine._estimate_turnover_cost` of `engine.py`. -/
def estimateTurnoverCost (ballPos targetPos : ℝ × ℝ) : ℝ :=
  let baseCost : ℝ :=
    if PITCH_LENGTH / 6 < ballPos.1 then 0.08
    else if -(PITCH_LENGTH / 6) < ballPos.1 then 0.05
    else 0.02
  baseCost * (1 + planeDist ballPos targetPos / 50)

/-- `DecisionEngine._analyze_shot_option` of `engine.py`: `None` beyond 30 m
from goal; otherwise the shot option, whose success probability and xg gain
are both the final xG and whose expected value is
`success_prob * 1.0 - (1 - success_prob) * 0.02`. -/
def analyzeShotOption (ballPos : ℝ × ℝ) (opponents : List PlayerState)
    (goalkeeper : Option PlayerState) : Option ProgressionOption :=
  let goalX := PITCH_LENGTH / 2
  let distanceToGoal := Real.sqrt ((goalX - ballPos.1) ^ 2 + ballPos.2 ^ 2)
  if 30 < distanceToGoal then none
  else
    let fbs := shotProbability ballPos opponents goalkeeper
    let finalXg := fbs.1
    let ev := finalXg * 1.0 - (1 - finalXg) * 0.02
    some { action_type := "shoot"
           target_player_id := none
           target_position := (goalX, 0)
           success_probability := finalXg
           interception_probability := fbs.2.1
           xg_current := 0
           xg_target := finalXg
           xg_gain := finalXg
           turnover_cost := 0.02
           expected_value := ev
           recommendation :=
             if 0.15 < finalXg then "HIGH_VALUE"
             else if 0.08 < finalXg then "MODERATE"
             else if 0.04 < finalXg then "LOW_VALUE"
             else "AVOID"
           receiver_pressure := 0
           receiver_facing_goal := True }

/-- `DecisionEngine._analyze_pass_option` of `engine.py`. -/
def analyzePassOption (ballPos : ℝ × ℝ) (target : PlayerState)
    (opponents : List PlayerState) (ballPressure : ℝ) : ProgressionOption :=
  let targetPos := target.position
  let isForward := decide (ballPos.1 < targetPos.1)
  let rq := receptionQuality ballPos target opponents
  let successProb :=
    passSuccessProbability ballPos targetPos opponents ballPressure isForward *
      (1 - rq.1 * 0.3)
  let xgCurrent := getXg ballPos
  let xgTarget0 := getXg targetPos
  let xgTarget1 :=
    if 0.7 < rq.2.1 then xgTarget0 * 0.6
    else if 0.4 < rq.2.1 then xgTarget0 * 0.8
    else xgTarget0
  let xgTarget := if rq.2.2 then xgTarget1 else xgTarget1 * 0.85
  let xgGain := xgTarget - xgCurrent
  let turnoverCost := estimateTurnoverCost ballPos targetPos
  let ev := successProb * xgGain - (1 - successProb) * turnoverCost
  { action_type := "pass"
    target_player_id := some target.player_id
    target_position := targetPos
    success_probability := successProb
    interception_probability := interceptionProbability ballPos targetPos opponents
    xg_current := xgCurrent
    xg_target := xgTarget
    xg_gain := xgGain
    turnover_cost := turnoverCost
    expected_value := ev
    recommendation := getRecommendation ev successProb
    receiver_pressure := rq.2.1
    receiver_facing_goal := rq.2.2 }

/-- `DecisionEngine._analyze_gap_option` of `engine.py`. -/
def analyzeGapOption (ballPos : ℝ × ℝ) (gap : DefensiveGap)
    (opponents : List PlayerState) (ballPressure : ℝ) : ProgressionOption :=
  let targetPos := gap.location
  let successProb :=
    passSuccessProbability ballPos targetPos opponents ballPressure true * 0.85
  let xgCurrent := getXg ballPos
  let xgTarget := gap.xg_if_exploited
  let xgGain := xgTarget - xgCurrent
  let turnoverCost := estimateTurnoverCost ballPos targetPos
  let ev := successProb * xgGain - (1 - successProb) * turnoverCost
  { action_type := "through_ball"
    target_player_id := none
    target_position := targetPos
    success_probability := successProb
    interception_probability := interceptionProbability ballPos targetPos opponents
    xg_current := xgCurrent
    xg_target := xgTarget
    xg_gain := xgGain
    turnover_cost := turnoverCost
    expected_value := ev
    recommendation := getRecommendation ev successProb }

/-- `DecisionEngine._analyze_dribble_options` of `engine.py`. -/
def analyzeDribbleOptions (ballPos : ℝ × ℝ) (opponents : List PlayerState) :
    List ProgressionOption :=
  let xgCurrent := getXg ballPos
  (dribbleOptionsModel ballPos opponents).map (fun tpx =>
    let xgGain := tpx.2.2 - xgCurrent
    let turnoverCost := estimateTurnoverCost ballPos tpx.1
    let ev := tpx.2.1 * xgGain - (1 - tpx.2.1) * turnoverCost
    { action_type := "dribble"
      target_player_id := none
      target_position := tpx.1
      success_probability := tpx.2.1
      interception_probability := 1 - tpx.2.1
      xg_current := xgCurrent
      xg_target := tpx.2.2
      xg_gain := xgGain
      turnover_cost := turnoverCost
      expected_value := ev
      recommendation := getRecommendation ev tpx.2.1
      receiver_pressure := 0
      receiver_facing_goal := True })

/-- The comparison used for `options.sort(key=lambda o: o.expected_value,
reverse=True)`: a stable descending sort by expected value. -/
def optionLE (a b : ProgressionOption) : Bool :=
  decide (b.expected_value ≤ a.expected_value)

/-- The unsorted option list that `DecisionEngine.analyze` builds: shot
option, then one pass option per non-carrier teammate, then one through-ball
option per exploitable gap, then the dribble options when the carrier was
found among the teammates. -/
def analyzeOptionsPresort (ballPosition : ℝ × ℝ) (ballCarrierId : ℤ)
    (teammates opponents : List PlayerState) : List ProgressionOption :=
  let ballPressure := calcPressure ballPosition opponents
  let goalkeeper := opponents.find? (fun o => o.is_goalkeeper)
  (analyzeShotOption ballPosition opponents goalkeeper).toList ++
  teammates.filterMap (fun teammate =>
    if teammate.player_id = ballCarrierId then none
    else some (analyzePassOption ballPosition teammate opponents ballPressure)) ++
  ((detectGaps 6 1 opponents).filter (fun g => decide g.exploitable)).map
    (fun gap => analyzeGapOption ballPosition gap opponents ballPressure) ++
  (match teammates.find? (fun t => decide (t.player_id = ballCarrierId)) with
   | some _ => analyzeDribbleOptions ballPosition opponents
   | none => [])

/-- `DecisionEngine.analyze` of `engine.py` with the default engine
configuration (`min_gap_size = 6`, EV thresholds `0.05` / `0.02`). -/
def analyze (ballPosition : ℝ × ℝ) (ballCarrierId : ℤ) (possessionTeam : ℤ)
    (teammates opponents : List PlayerState) (timestamp : ℝ) : DecisionEngineOutput :=
  let sortedOptions :=
    (analyzeOptionsPresort ballPosition ballCarrierId teammates opponents).mergeSort optionLE
  { timestamp := timestamp
    ball_position := ballPosition
    ball_carrier_id := ballCarrierId
    possession_team := possessionTeam
    defensive_gaps := detectGaps 6 1 opponents
    progression_options := sortedOptions
    best_option := sortedOptions.head?
    total_options := sortedOptions.length
    high_value_options :=
      sortedOptions.countP (fun o => decide (evThresholdHigh ≤ o.expected_value))
    safe_options :=
      sortedOptions.countP (fun o => decide ((0.80 : ℝ) ≤ o.success_probability)) }

/-- C2: the option list of `DecisionEngine.analyze` is sorted non-increasing
by expected value, and `best_option` is its head, absent exactly when the
list is empty. -/
theorem C2_analyze_sorted_best (ballPosition : ℝ × ℝ) (ballCarrierId possessionTeam : ℤ)
    (teammates opponents : List PlayerState) (timestamp : ℝ) :
    (analyze ballPosition ballCarrierId possessionTeam teammates opponents
        timestamp).progression_options.Pairwise
      (fun a b => b.expected_value ≤ a.expected_value) ∧
    (analyze ballPosition ballCarrierId possessionTeam teammates opponents
        timestamp).best_option =
      (analyze ballPosition ballCarrierId possessionTeam teammates opponents
        timestamp).progression_options.head? ∧
    ((analyze ballPosition ballCarrierId possessionTeam teammates opponents
        timestamp).best_option = none ↔
      (analyze ballPosition ballCarrierId possessionTeam teammates opponents
        timestamp).progression_options = []) := by
  refine ⟨?_, rfl, ?_⟩
  · show (List.mergeSort _ optionLE).Pairwise _
    refine List.Pairwise.imp (fun h => ?_) (List.sorted_mergeSort ?_ ?_ _)
    · exact of_decide_eq_true h
    · intro a b c hab hbc
      exact decide_eq_true (le_trans (of_decide_eq_true hbc) (of_decide_eq_true hab))
    · intro a b
      simp only [optionLE, Bool.or_eq_true, decide_eq_true_eq]
      exact le_total b.expected_value a.expected_value
  · show (List.mergeSort _ optionLE).head? = none ↔ _
    exact List.head?_eq_none_iff

theorem sqrt_val {x r : ℝ} (hr : 0 ≤ r) (h : x = r ^ 2) : Real.sqrt x = r := by
  rw [h]
  exact Real.sqrt_sq hr

theorem planeDist_val {a b : ℝ × ℝ} {r : ℝ} (hr : 0 ≤ r)
    (h : (b.1 - a.1) ^ 2 + (b.2 - a.2) ^ 2 = r ^ 2) : planeDist a b = r := by
  unfold planeDist
  rw [h]
  exact Real.sqrt_sq hr

theorem analyzeShotOption_fields (bp : ℝ × ℝ) (opps : List PlayerState)
    (gk : Option PlayerState) (o : ProgressionOption)
    (h : analyzeShotOption bp opps gk = some o) :
    o.action_type = "shoot" ∧
    o.success_probability = (shotProbability bp opps gk).1 ∧
    o.xg_gain = (shotProbability bp opps gk).1 ∧
    o.turnover_cost = 0.02 ∧
    o.expected_value =
      (shotProbability bp opps gk).1 * 1.0 - (1 - (shotProbability bp opps gk).1) * 0.02 := by
  simp only [analyzeShotOption] at h
  split at h
  · exact absurd h (by simp)
  · rw [Option.some.injEq] at h
    subst h
    exact ⟨rfl, rfl, rfl, rfl, rfl⟩

/-- C1 (amended): for every option in the list returned by
`DecisionEngine.analyze` that is not a shot, the stored expected value equals
`success_probability × xg_gain − (1 − success_probability) × turnover_cost`
recomputed from the stored fields; for shot options the stored expected value
is instead `success_probability × 1.0 − (1 − success_probability) ×
turnover_cost` (the code values a goal at `1.0`, not at `xg_gain`). -/
theorem C1_expected_value_identity (ballPosition : ℝ × ℝ)
    (ballCarrierId possessionTeam : ℤ) (teammates opponents : List PlayerState)
    (timestamp : ℝ) (o : ProgressionOption)
    (ho : o ∈ (analyze ballPosition ballCarrierId possessionTeam teammates opponents
      timestamp).progression_options) :
    (o.action_type ≠ "shoot" →
      o.expected_value = o.success_probability * o.xg_gain -
        (1 - o.success_probability) * o.turnover_cost) ∧
    (o.action_type = "shoot" →
      o.expected_value = o.success_probability * 1.0 -
        (1 - o.success_probability) * o.turnover_cost) := by
  have ho2 : o ∈ analyzeOptionsPresort ballPosition ballCarrierId teammates opponents :=
    List.mem_mergeSort.1 ho
  simp only [analyzeOptionsPresort, List.mem_append] at ho2
  rcases ho2 with ((hshot | hpass) | hgap) | hdrib
  · rw [Option.mem_toList, Option.mem_def] at hshot
    obtain ⟨hat, hsp, _, htc, hev⟩ := analyzeShotOption_fields _ _ _ _ hshot
    refine ⟨fun hne => absurd hat hne, fun _ => ?_⟩
    rw [hev, hsp, htc]
  · rw [List.mem_filterMap] at hpass
    obtain ⟨t, _, hf⟩ := hpass
    by_cases hc : t.player_id = ballCarrierId
    · rw [if_pos hc] at hf
      exact absurd hf (by simp)
    · rw [if_neg hc, Option.some.injEq] at hf
      subst hf
      refine ⟨fun _ => rfl, fun h => ?_⟩
      have hat : (analyzePassOption ballPosition t opponents
          (calcPressure ballPosition opponents)).action_type = "pass" := rfl
      rw [hat] at h
      exact absurd h (by decide)
  · rw [List.mem_map] at hgap
    obtain ⟨g, _, rfl⟩ := hgap
    refine ⟨fun _ => rfl, fun h => ?_⟩
    have hat : (analyzeGapOption ballPosition g opponents
        (calcPressure ballPosition opponents)).action_type = "through_ball" := rfl
    rw [hat] at h
    exact absurd h (by decide)
  · rcases hfind : teammates.find? (fun t => decide (t.player_id = ballCarrierId)) with _ | c
    · rw [hfind] at hdrib
      simp at hdrib
    · rw [hfind] at hdrib
      simp only [analyzeDribbleOptions, List.mem_map] at hdrib
      obtain ⟨tpx, _, rfl⟩ := hdrib
      refine ⟨fun _ => rfl, fun h => ?_⟩
      simp only at h
      exact absurd h (by decide)

/-- A ball carrier standing at `(49, 0)`, well inside shooting range. -/
def cexShotCarrier : PlayerState := { player_id := 1, position := (49, 0) }

/-- A ball carrier at the pitch centre. -/
def wCarrier : PlayerState := { player_id := 1, position := (0, 0) }

/-- A teammate 5 m upfield of the centre. -/
def wMate : PlayerState := { player_id := 2, position := (5, 0) }

/-- C1 counterexample: at `(49, 0)` with no opponents, the shot option in the
analyze output stores `xg_gain = success_probability = final_xg ∈ [0.01,
0.75]` but `expected_value = success_probability * 1.0 - (1 -
success_probability) * 0.02`, which differs from the identity recomputed from
the stored fields. -/
theorem C1_counterexample :
    ∃ o ∈ (analyze (49, 0) 1 0 [cexShotCarrier] [] 0).progression_options,
      o.expected_value ≠
        o.success_probability * o.xg_gain - (1 - o.success_probability) * o.turnover_cost := by
  have hd : Real.sqrt ((PITCH_LENGTH / 2 - ((49 : ℝ), (0 : ℝ)).1) ^ 2 +
      ((49 : ℝ), (0 : ℝ)).2 ^ 2) = 3.5 :=
    sqrt_val (by norm_num) (by norm_num [PITCH_LENGTH])
  obtain ⟨s, hs⟩ : ∃ s, analyzeShotOption (49, 0) [] none = some s := by
    simp only [analyzeShotOption, hd]
    rw [if_neg (by norm_num)]
    exact ⟨_, rfl⟩
  obtain ⟨hat, hsp, hgain, htc, hev⟩ := analyzeShotOption_fields _ _ _ _ hs
  have hfx : (shotProbability (49, 0) [] none).1 = positionXg (49, 0) := by
    simp only [shotProbability, defenderBlocking, goalkeeperSave]
    norm_num
  obtain ⟨hx1, hx2⟩ := positionXg_bounds (49, 0)
  refine ⟨s, ?_, ?_⟩
  · apply List.mem_mergeSort.2
    simp only [analyzeOptionsPresort, List.find?_nil, hs, List.mem_append]
    exact Or.inl (Or.inl (Or.inl (by simp)))
  · rw [hev, hsp, hgain, htc, hfx]
    intro heq
    nlinarith

/-- C1 witness: a concrete non-shot option of a concrete analyze call for
which the expected-value identity of the amended claim holds. -/
theorem C1_witness :
    ∃ o ∈ (analyze (0, 0) 1 0 [wCarrier, wMate] [] 0).progression_options,
      o.action_type ≠ "shoot" ∧
      o.expected_value =
        o.success_probability * o.xg_gain - (1 - o.success_probability) * o.turnover_cost := by
  have hmem : analyzePassOption (0, 0) wMate [] (calcPressure (0, 0) []) ∈
      (analyze (0, 0) 1 0 [wCarrier, wMate] [] 0).progression_options := by
    apply List.mem_mergeSort.2
    simp only [analyzeOptionsPresort, List.mem_append]
    refine Or.inl (Or.inl (Or.inr ?_))
    rw [List.mem_filterMap]
    refine ⟨wMate, by simp, ?_⟩
    rw [if_neg (by simp [wMate])]
  have hne : (analyzePassOption (0, 0) wMate [] (calcPressure (0, 0) [])).action_type ≠
      "shoot" := by
    have hat : (analyzePassOption (0, 0) wMate []
        (calcPressure (0, 0) [])).action_type = "pass" := rfl
    rw [hat]
    decide
  exact ⟨_, hmem, hne,
    (C1_expected_value_identity (0, 0) 1 0 [wCarrier, wMate] [] 0 _ hmem).1 hne⟩

theorem receptionQuality_fst_cases (pp : ℝ × ℝ) (r : PlayerState) (ds : List PlayerState) :
    (receptionQuality pp r ds).1 = 0.1 ∨ (receptionQuality pp r ds).1 = 0.3 ∨
    (receptionQuality pp r ds).1 = 0.5 ∨ (receptionQuality pp r ds).1 = 0.7 := by
  simp only [receptionQuality]
  split_ifs <;> simp

/-- C5: every pass option produced by `DecisionEngine.analyze` stores a
success probability within `[0.05, 0.98]`. (The code multiplies the clipped
pass-model probability by the reception-difficulty factor, so this is not the
clip alone: the product is bounded below by `0.095 × 0.79` and above by
`0.98 × 0.97`.) -/
theorem C5_pass_success_probability_bounds (ballPosition : ℝ × ℝ)
    (ballCarrierId possessionTeam : ℤ) (teammates opponents : List PlayerState)
    (timestamp : ℝ) (o : ProgressionOption)
    (ho : o ∈ (analyze ballPosition ballCarrierId possessionTeam teammates opponents
      timestamp).progression_options)
    (hp : o.action_type = "pass") :
    0.05 ≤ o.success_probability ∧ o.success_probability ≤ 0.98 := by
  have ho2 : o ∈ analyzeOptionsPresort ballPosition ballCarrierId teammates opponents :=
    List.mem_mergeSort.1 ho
  simp only [analyzeOptionsPresort, List.mem_append] at ho2
  rcases ho2 with ((hshot | hpass) | hgap) | hdrib
  · rw [Option.mem_toList, Option.mem_def] at hshot
    obtain ⟨hat, _, _, _, _⟩ := analyzeShotOption_fields _ _ _ _ hshot
    rw [hat] at hp
    exact absurd hp (by decide)
  · rw [List.mem_filterMap] at hpass
    obtain ⟨t, _, hf⟩ := hpass
    by_cases hc : t.player_id = ballCarrierId
    · rw [if_pos hc] at hf
      exact absurd hf (by simp)
    · rw [if_neg hc, Option.some.injEq] at hf
      subst hf
      have hspeq : (analyzePassOption ballPosition t opponents
          (calcPressure ballPosition opponents)).success_probability =
          passSuccessProbability ballPosition t.position opponents
            (calcPressure ballPosition opponents)
            (decide (ballPosition.1 < t.position.1)) *
          (1 - (receptionQuality ballPosition t opponents).1 * 0.3) := rfl
      obtain ⟨hpr0, hpr1⟩ := calcPressure_bounds ballPosition opponents
      obtain ⟨hps1, hps2⟩ := passSuccessProbability_bounds ballPosition t.position opponents
        (calcPressure ballPosition opponents)
        (decide (ballPosition.1 < t.position.1)) hpr0 hpr1
      have hrd : 0.1 ≤ (receptionQuality ballPosition t opponents).1 ∧
          (receptionQuality ballPosition t opponents).1 ≤ 0.7 := by
        rcases receptionQuality_fst_cases ballPosition t opponents with h | h | h | h <;>
          rw [h] <;> norm_num
      rw [hspeq]
      constructor
      · nlinarith [hrd.1, hrd.2]
      · nlinarith [hrd.1, hrd.2]
  · rw [List.mem_map] at hgap
    obtain ⟨g, _, rfl⟩ := hgap
    have hat : (analyzeGapOption ballPosition g opponents
        (calcPressure ballPosition opponents)).action_type = "through_ball" := rfl
    rw [hat] at hp
    exact absurd hp (by decide)
  · rcases hfind : teammates.find? (fun t => decide (t.player_id = ballCarrierId)) with _ | c
    · rw [hfind] at hdrib
      simp at hdrib
    · rw [hfind] at hdrib
      simp only [analyzeDribbleOptions, List.mem_map] at hdrib
      obtain ⟨tpx, _, rfl⟩ := hdrib
      simp only at hp
      exact absurd hp (by decide)

/-- A teammate 10 m upfield of the centre. -/
def wMate10 : PlayerState := { player_id := 2, position := (10, 0) }

/-- C5 witness: a concrete pass option of a concrete analyze call, with its
success probability inside `[0.05, 0.98]` by the theorem. -/
theorem C5_witness :
    ∃ o ∈ (analyze (0, 0) 1 0 [wCarrier, wMate10] [] 0).progression_options,
      o.action_type = "pass" ∧
      0.05 ≤ o.success_probability ∧ o.success_probability ≤ 0.98 := by
  have hmem : analyzePassOption (0, 0) wMate10 [] (calcPressure (0, 0) []) ∈
      (analyze (0, 0) 1 0 [wCarrier, wMate10] [] 0).progression_options := by
    apply List.mem_mergeSort.2
    simp only [analyzeOptionsPresort, List.mem_append]
    refine Or.inl (Or.inl (Or.inr ?_))
    rw [List.mem_filterMap]
    refine ⟨wMate10, by simp, ?_⟩
    rw [if_neg (by simp [wMate10])]
  have hat : (analyzePassOption (0, 0) wMate10 []
      (calcPressure (0, 0) [])).action_type = "pass" := rfl
  exact ⟨_, hmem, hat,
    C5_pass_success_probability_bounds (0, 0) 1 0 [wCarrier, wMate10] [] 0 _ hmem hat⟩

theorem ereal_coe_min (a b : ℝ) :
    min ((a : ℝ) : EReal) ((b : ℝ) : EReal) = ((min a b : ℝ) : EReal) := by
  rcases le_total a b with h | h
  · rw [min_eq_left (EReal.coe_le_coe_iff.2 h), min_eq_left h]
  · rw [min_eq_right (EReal.coe_le_coe_iff.2 h), min_eq_right h]

/-- C4 (amended): with a non-empty defender list and a pass of length at
least `0.1`, `interception_probability` maps the minimum time margin `m` by:
`m > 0.5 → 0.9`; `0 < m ≤ 0.5 → 0.5 + 0.8 m`, a linear value in `(0.5,
0.9]`; `-0.5 < m ≤ 0 → 0.3 + 0.4 m`, a linear value in `(0.1, 0.3]` (not
between 0.3 and 0.5 as claimed); and `m ≤ -0.5 → 0.05` exactly (the floor
`max 0.05 (0.1 + 0.1 m)` collapses to `0.05` there). -/
theorem C4_interception_piecewise (ps pe : ℝ × ℝ) (defenders : List PlayerState)
    (isAerial : Bool) (hne : defenders ≠ []) (hlen : ¬ planeDist ps pe < 0.1) :
    (((0.5 : ℝ) : EReal) < minTimeAdvantage ps pe defenders
        (if isAerial then ballSpeedAir else ballSpeedGround) →
      interceptionProbability ps pe defenders isAerial = 0.9) ∧
    ((((0 : ℝ) : EReal) < minTimeAdvantage ps pe defenders
        (if isAerial then ballSpeedAir else ballSpeedGround) ∧
      minTimeAdvantage ps pe defenders
        (if isAerial then ballSpeedAir else ballSpeedGround) ≤ ((0.5 : ℝ) : EReal)) →
      interceptionProbability ps pe defenders isAerial =
        0.5 + (minTimeAdvantage ps pe defenders
          (if isAerial then ballSpeedAir else ballSpeedGround)).toReal * 0.8 ∧
      0.5 < interceptionProbability ps pe defenders isAerial ∧
      interceptionProbability ps pe defenders isAerial ≤ 0.9) ∧
    ((((-0.5 : ℝ) : EReal) < minTimeAdvantage ps pe defenders
        (if isAerial then ballSpeedAir else ballSpeedGround) ∧
      minTimeAdvantage ps pe defenders
        (if isAerial then ballSpeedAir else ballSpeedGround) ≤ ((0 : ℝ) : EReal)) →
      interceptionProbability ps pe defenders isAerial =
        0.3 + (minTimeAdvantage ps pe defenders
          (if isAerial then ballSpeedAir else ballSpeedGround)).toReal * 0.4 ∧
      0.1 < interceptionProbability ps pe defenders isAerial ∧
      interceptionProbability ps pe defenders isAerial ≤ 0.3) ∧
    (minTimeAdvantage ps pe defenders
        (if isAerial then ballSpeedAir else ballSpeedGround) ≤ ((-0.5 : ℝ) : EReal) →
      interceptionProbability ps pe defenders isAerial = 0.05) := by
  simp only [interceptionProbability]
  rw [if_neg hne, if_neg hlen]
  generalize minTimeAdvantage ps pe defenders
    (if isAerial = true then ballSpeedAir else ballSpeedGround) = m
  induction m with
  | h_bot =>
    refine ⟨fun h1 => absurd h1 not_lt_bot,
      fun h2 => absurd h2.1 not_lt_bot,
      fun h3 => absurd h3.1 not_lt_bot,
      fun _ => ?_⟩
    rw [if_neg (not_lt_bot), if_neg (not_lt_bot), if_neg (not_lt_bot), if_pos rfl]
  | h_real r =>
    refine ⟨fun h1 => ?_, fun h2 => ?_, fun h3 => ?_, fun h4 => ?_⟩
    · rw [if_pos h1]
    · obtain ⟨h2a, h2b⟩ := h2
      have h2ar : (0 : ℝ) < r := EReal.coe_lt_coe_iff.1 h2a
      have h2br : r ≤ 0.5 := EReal.coe_le_coe_iff.1 h2b
      rw [if_neg (fun hc => absurd (EReal.coe_lt_coe_iff.1 hc) (not_lt.2 h2br)),
        if_pos h2a, EReal.toReal_coe]
      exact ⟨rfl, by nlinarith, by nlinarith⟩
    · obtain ⟨h3a, h3b⟩ := h3
      have h3ar : (-0.5 : ℝ) < r := EReal.coe_lt_coe_iff.1 h3a
      have h3br : r ≤ 0 := EReal.coe_le_coe_iff.1 h3b
      rw [if_neg (fun hc => absurd (EReal.coe_lt_coe_iff.1 hc) (by linarith)),
        if_neg (fun hc => absurd (EReal.coe_lt_coe_iff.1 hc) (not_lt.2 h3br)),
        if_pos h3a, EReal.toReal_coe]
      exact ⟨rfl, by nlinarith, by nlinarith⟩
    · have h4r : r ≤ -0.5 := EReal.coe_le_coe_iff.1 h4
      rw [if_neg (fun hc => absurd (EReal.coe_lt_coe_iff.1 hc) (by linarith)),
        if_neg (fun hc => absurd (EReal.coe_lt_coe_iff.1 hc) (by linarith)),
        if_neg (fun hc => absurd (EReal.coe_lt_coe_iff.1 hc) (by linarith)),
        if_neg (EReal.coe_ne_bot r), EReal.toReal_coe]
      exact max_eq_left (by nlinarith)
  | h_top =>
    refine ⟨fun _ => ?_, fun h2 => ?_, fun h3 => ?_, fun h4 => ?_⟩
    · rw [if_pos (EReal.coe_lt_top (0.5 : ℝ))]
    · exact absurd h2.2 ((EReal.coe_lt_top (0.5 : ℝ)).not_le)
    · exact absurd h3.2 ((EReal.coe_lt_top (0 : ℝ)).not_le)
    · exact absurd h4 ((EReal.coe_lt_top (-0.5 : ℝ)).not_le)

/-- A defender standing at the start of the pass (default top speed 8 m/s,
default reaction time 0.3 s). -/
def cexDefender : PlayerState := { player_id := 3, position := (0, 0) }

theorem cex_timeToReach (i : ℕ) :
    timeToReach (samplePoint (0, 0) (1, 0) 5 i) cexDefender =
      ((0.3 + (i : ℝ) / 5 / 8 : ℝ) : EReal) := by
  have hpd : planeDist cexDefender.position (samplePoint (0, 0) (1, 0) 5 i) = (i : ℝ) / 5 := by
    apply planeDist_val (by positivity)
    simp only [cexDefender, samplePoint]
    ring
  unfold timeToReach
  rw [if_neg (by norm_num [cexDefender]), hpd]
  norm_num [cexDefender]

theorem cex_sampleAdvantage (i : ℕ) :
    sampleAdvantage (0, 0) (1, 0) [cexDefender] ballSpeedGround 5 i =
      (((i : ℝ) / 75 - (0.3 + (i : ℝ) / 40) : ℝ) : EReal) := by
  unfold sampleAdvantage minDefenderTime
  simp only [List.map_cons, List.map_nil, List.foldr_cons, List.foldr_nil]
  rw [cex_timeToReach i, min_eq_left le_top,
    planeDist_val (a := ((0 : ℝ), (0 : ℝ))) (b := ((1 : ℝ), (0 : ℝ))) (r := 1)
      (by norm_num) (by norm_num),
    ← EReal.coe_sub]
  congr 1
  norm_num [ballSpeedGround]
  ring

theorem cexDefender_minAdv :
    minTimeAdvantage (0, 0) (1, 0) [cexDefender] ballSpeedGround =
      ((-43 / 120 : ℝ) : EReal) := by
  simp only [minTimeAdvantage]
  rw [planeDist_val (r := 1) (by norm_num) (by norm_num)]
  have hns : numSamples 1 = 5 := by
    unfold numSamples pyInt
    norm_num
  rw [hns, show List.range 6 = [0, 1, 2, 3, 4, 5] from rfl]
  simp only [List.map_cons, List.map_nil, List.foldr_cons, List.foldr_nil]
  rw [cex_sampleAdvantage 0, cex_sampleAdvantage 1, cex_sampleAdvantage 2,
    cex_sampleAdvantage 3, cex_sampleAdvantage 4, cex_sampleAdvantage 5,
    min_eq_left le_top, ereal_coe_min, ereal_coe_min, ereal_coe_min, ereal_coe_min,
    ereal_coe_min]
  congr 1
  push_cast
  rw [min_def, min_def, min_def, min_def, min_def]
  norm_num

theorem cex_interceptionProbability :
    interceptionProbability (0, 0) (1, 0) [cexDefender] false = 47 / 300 := by
  simp only [interceptionProbability, Bool.false_eq_true, if_false]
  rw [if_neg (by simp),
    if_neg (by rw [planeDist_val (r := 1) (by norm_num) (by norm_num)]; norm_num),
    cexDefender_minAdv]
  rw [if_neg (fun hc => absurd (EReal.coe_lt_coe_iff.1 hc) (by norm_num)),
    if_neg (fun hc => absurd (EReal.coe_lt_coe_iff.1 hc) (by norm_num)),
    if_pos (EReal.coe_lt_coe_iff.2 (by norm_num)), EReal.toReal_coe]
  norm_num

/-- C4 counterexample: for the pass `(0,0) → (1,0)` against a single default
defender at the start, the minimum time margin is `-43/120 ∈ (-0.5, 0]`, but
the interception probability is `47/300 ≈ 0.157`, not a value between `0.3`
and `0.5` as the claim asserts for that band. -/
theorem C4_counterexample :
    ((-0.5 : ℝ) : EReal) < minTimeAdvantage (0, 0) (1, 0) [cexDefender] ballSpeedGround ∧
    minTimeAdvantage (0, 0) (1, 0) [cexDefender] ballSpeedGround ≤ ((0 : ℝ) : EReal) ∧
    interceptionProbability (0, 0) (1, 0) [cexDefender] false = 47 / 300 ∧
    ¬ ((0.3 : ℝ) ≤ 47 / 300) := by
  refine ⟨?_, ?_, cex_interceptionProbability, by norm_num⟩
  · rw [cexDefender_minAdv]
    exact EReal.coe_lt_coe_iff.2 (by norm_num)
  · rw [cexDefender_minAdv]
    exact EReal.coe_le_coe_iff.2 (by norm_num)

/-- C4 witness: the amended piecewise map applied to the concrete scenario,
giving probability `47/300` in the `(-0.5, 0]` band. -/
theorem C4_witness :
    interceptionProbability (0, 0) (1, 0) [cexDefender] false = 47 / 300 ∧
    (0.1 : ℝ) < 47 / 300 ∧ (47 / 300 : ℝ) ≤ 0.3 := by
  have h := (C4_interception_piecewise (0, 0) (1, 0) [cexDefender] false
    (by simp)
    (by rw [planeDist_val (r := 1) (by norm_num) (by norm_num)]; norm_num)).2.2.1
  rw [show (if (false : Bool) then ballSpeedAir else ballSpeedGround) = ballSpeedGround
      from rfl, cexDefender_minAdv] at h
  have h2 := h ⟨EReal.coe_lt_coe_iff.2 (by norm_num), EReal.coe_le_coe_iff.2 (by norm_num)⟩
  rw [EReal.toReal_coe] at h2
  refine ⟨?_, by norm_num, by norm_num⟩
  rw [h2.1]
  norm_num

namespace Exec

/-- `PLAYER_SPEED` of `action_executor.py`. -/
def PLAYER_SPEED : ℝ := 8

/-- `PASS_SPEED` of `action_executor.py`. -/
def PASS_SPEED : ℝ := 15

/-- `DRIBBLE_SPEED` of `action_executor.py` (unused by the executor logic). -/
def DRIBBLE_SPEED : ℝ := 6

/-- `REACTION_TIME` of `action_executor.py`. -/
def REACTION_TIME : ℝ := 0.25

/-- `TIME_STEP` of `action_executor.py`. -/
def TIME_STEP : ℝ := 0.5

/-- Modelled from the spec: `Player` of the missing `elimination` module —
an actor with an identity, a 2-D position in meters, and a team tag (spec §3
Actor; positions are `Position` values of the missing `pitch_geometry`
module, modelled as `ℝ × ℝ` with Euclidean `distance_to`, which is
`planeDist`). -/
structure Player where
  id : String
  position : ℝ × ℝ
  team : String := "defense"

/-- Modelled from the spec: `GameState` of the missing `state_scoring`
module — ball position, optional ball carrier, attacker and defender lists
and a timestamp (spec §3 Game Snapshot). -/
structure GameState where
  ball_position : ℝ × ℝ
  ball_carrier : Option Player
  attackers : List Player
  defenders : List Player
  timestamp : ℝ

/-- Modelled from the spec: `ActionType` of the missing `state_scoring`
module — the closed action-kind enumeration used by the executor's dispatch. -/
inductive ActionType where
  | shot
  | passForward
  | passLateral
  | passBackward
  | dribble
  | carry
deriving DecidableEq

/-- Modelled from the spec: `ActionOption` of the missing `state_scoring`
module — an action kind and target with its predicted success probability and
expected value (spec §3 Progression Option; only the fields the executor and
loop read are modelled). -/
structure ActionOption where
  action_type : ActionType
  target : ℝ × ℝ
  success_probability : ℝ := 0
  expected_value : ℝ := 0

/-- `ActionResult` of `action_executor.py`. -/
inductive ActionResult where
  | success
  | intercepted
  | outOfBounds
  | goal
  | saved
deriving DecidableEq

/-- `ExecutionResult` of `action_executor.py` (messages abstracted to fixed
strings; the Python code interpolates player ids into them). -/
structure ExecutionResult where
  action : ActionOption
  result : ActionResult
  new_state : GameState
  message : String := ""

/-- `DecisionStep` of `action_executor.py`; `action_chosen` and `result` are
optional because `DecisionEngine.step` stores `None` in both when no action
is available. -/
structure DecisionStep where
  state_before : GameState
  action_chosen : Option ActionOption
  result : Option ExecutionResult
  state_after : GameState

/-- Modelled from the spec: `perpendicular_distance_to_line` of the missing
`pitch_geometry` module — the distance from point `p` to the segment from
`s` to `e` (spec §2: "perpendicular distance to a segment"), via the clamped
projection onto the segment; for a degenerate segment, the distance to `s`. -/
def perpendicularDistanceToLine (p s e : ℝ × ℝ) : ℝ :=
  let len2 := (e.1 - s.1) ^ 2 + (e.2 - s.2) ^ 2
  if len2 = 0 then planeDist s p
  else
    let t := ((p.1 - s.1) * (e.1 - s.1) + (p.2 - s.2) * (e.2 - s.2)) / len2
    let tc := min 1 (max 0 t)
    planeDist (s.1 + tc * (e.1 - s.1), s.2 + tc * (e.2 - s.2)) p

/-- The per-defender condition of `ActionExecutor._check_interception`:
the defender reaches the pass line before the ball passes and is within 3 m
of it. -/
def interceptsPass (start target : ℝ × ℝ) (defender : Player) : Prop :=
  REACTION_TIME + perpendicularDistanceToLine defender.position start target / PLAYER_SPEED <
    planeDist start target / PASS_SPEED * 0.8 ∧
  perpendicularDistanceToLine defender.position start target < 3

/-- `ActionExecutor._check_interception` of `action_executor.py`: the first
defender able to intercept. -/
def checkInterception (start target : ℝ × ℝ) (defenders : List Player) : Option Player :=
  defenders.find? (fun d => decide (interceptsPass start target d))

/-- `ActionExecutor._check_tackle` of `action_executor.py`. -/
def checkTackle (start target : ℝ × ℝ) (defenders : List Player) : Option Player :=
  defenders.find? (fun d =>
    decide (planeDist d.position start < 2 ∨ planeDist d.position target < 2))

/-- Modelled from the spec: `attacking_goal` of the missing `pitch_geometry`
module — the centre of the attacking goal on the `+x` end of the
centre-origin pitch (`x = 52.5`, spec §6 coordinate convention and the
engine's goal at half the pitch length). -/
def attackingGoal : ℝ × ℝ := (52.5, 0)

/-- `ActionExecutor._check_shot_block` of `action_executor.py`. -/
def checkShotBlock (shotStart goal : ℝ × ℝ) (defenders : List Player) : Option Player :=
  defenders.find? (fun d =>
    decide (perpendicularDistanceToLine d.position shotStart goal < 2 ∧
      planeDist d.position goal < planeDist shotStart goal))

/-- `ActionExecutor._find_player_at` of `action_executor.py` (threshold 2 m). -/
def findPlayerAt (position : ℝ × ℝ) (players : List Player) : Option Player :=
  players.find? (fun p => decide (planeDist p.position position < 2))

/-- One defender's move in `ActionExecutor._move_defenders_toward_ball`
(`math.sqrt(dx*dx + dy*dy)` is the Euclidean distance `planeDist`): move
`min(PLAYER_SPEED * TIME_STEP * 0.5, dist)` straight toward the ball when
more than 1 m away, else stay. -/
def moveDefenderTowardBall (ballPosition : ℝ × ℝ) (defender : Player) : Player :=
  let dx := ballPosition.1 - defender.position.1
  let dy := ballPosition.2 - defender.position.2
  let dist := planeDist defender.position ballPosition
  if 1 < dist then
    let moveDist := min (PLAYER_SPEED * TIME_STEP * 0.5) dist
    { defender with position := (defender.position.1 + dx / dist * moveDist,
                                 defender.position.2 + dy / dist * moveDist) }
  else defender

/-- `ActionExecutor._move_defenders_toward_ball` of `action_executor.py`. -/
def moveDefendersTowardBall (defenders : List Player) (ballPosition : ℝ × ℝ) : List Player :=
  defenders.map (moveDefenderTowardBall ballPosition)

/-- The update-first-matching-attacker loop of
`ActionExecutor._create_new_state`. -/
def replaceFirstById (players : List Player) (c : Player) : List Player :=
  match players with
  | [] => []
  | p :: rest => if p.id = c.id then c :: rest else p :: replaceFirstById rest c

/-- `ActionExecutor._create_new_state` of `action_executor.py`: optionally
update the carrier among the attackers, move all defenders toward the new
ball position, swap the lists on a possession change, and advance the clock
by `TIME_STEP`. -/
def createNewState (oldState : GameState) (ballPosition : ℝ × ℝ)
    (ballCarrier : Option Player) (possessionChange : Bool) : GameState :=
  let newAttackers :=
    match ballCarrier with
    | some c =>
      if possessionChange then oldState.attackers else replaceFirstById oldState.attackers c
    | none => oldState.attackers
  let newDefenders := moveDefendersTowardBall oldState.defenders ballPosition
  { ball_position := ballPosition
    ball_carrier := ballCarrier
    attackers := if possessionChange then newDefenders else newAttackers
    defenders := if possessionChange then newAttackers else newDefenders
    timestamp := oldState.timestamp + TIME_STEP }

/-- `ActionExecutor._execute_pass` of `action_executor.py`. -/
def executePass (state : GameState) (action : ActionOption) : ExecutionResult :=
  match checkInterception state.ball_position action.target state.defenders with
  | some interceptor =>
    { action := action
      result := ActionResult.intercepted
      new_state := createNewState state interceptor.position (some interceptor) true
      message := "Pass intercepted" }
  | none =>
    { action := action
      result := ActionResult.success
      new_state :=
        createNewState state action.target (findPlayerAt action.target state.attackers) false
      message := "Pass successful" }

/-- `ActionExecutor._execute_dribble` of `action_executor.py`. -/
def executeDribble (state : GameState) (action : ActionOption) : ExecutionResult :=
  match checkTackle state.ball_position action.target state.defenders with
  | some tackler =>
    { action := action
      result := ActionResult.intercepted
      new_state := createNewState state tackler.position (some tackler) true
      message := "Tackled" }
  | none =>
    { action := action
      result := ActionResult.success
      new_state := createNewState state action.target
        (state.ball_carrier.map (fun c => { c with position := action.target })) false
      message := "Dribble successful" }

/-- `ActionExecutor._create_kickoff_state` of `action_executor.py`. -/
def createKickoffState (oldState : GameState) : GameState :=
  { ball_position := (0, 0)
    ball_carrier := none
    attackers := oldState.attackers
    defenders := oldState.defenders
    timestamp := oldState.timestamp + 1 }

/-- `ActionExecutor._execute_shot` of `action_executor.py`. -/
def executeShot (state : GameState) (action : ActionOption) : ExecutionResult :=
  match checkShotBlock state.ball_position attackingGoal state.defenders with
  | some blocker =>
    { action := action
      result := ActionResult.saved
      new_state := createNewState state blocker.position (some blocker) true
      message := "Shot blocked" }
  | none =>
    { action := action
      result := ActionResult.goal
      new_state := createKickoffState state
      message := "GOAL" }

/-- `ActionExecutor.execute` of `action_executor.py`: closed dispatch over
the action kind (the Python `ValueError` branch is unreachable because the
enumeration is closed). -/
def execute (state : GameState) (action : ActionOption) : ExecutionResult :=
  match action.action_type with
  | ActionType.shot => executeShot state action
  | ActionType.passForward => executePass state action
  | ActionType.passLateral => executePass state action
  | ActionType.passBackward => executePass state action
  | ActionType.dribble => executeDribble state action
  | ActionType.carry => executeDribble state action

/-- Modelled from the spec: `DecisionEngine.decide` of `action_executor.py`
selects the head of the evaluator's available-action list (spec §4.7: the
loop "selects the top-ranked option (or stops if none)"); the evaluator of
the missing `state_scoring` module is kept abstract as a function from a
state to its available actions. -/
def decideAction (evaluate : GameState → List ActionOption) (state : GameState) :
    Option ActionOption :=
  (evaluate state).head?

/-- `DecisionEngine.step` of `action_executor.py` over the abstract
evaluator: with no available action it records a null step that leaves the
state unchanged; otherwise it executes the chosen action. -/
def step (evaluate : GameState → List ActionOption) (state : GameState) : DecisionStep :=
  match decideAction evaluate state with
  | none =>
    { state_before := state, action_chosen := none, result := none, state_after := state }
  | some action =>
    let result := execute state action
    { state_before := state
      action_chosen := some action
      result := some result
      state_after := result.new_state }

/-- `DecisionEngine.run` of `action_executor.py`: append a step, then stop on
a null step, on a goal (when configured), or on possession loss (when
configured); otherwise advance and continue up to the step budget. -/
def run (evaluate : GameState → List ActionOption) (stopOnGoal stopOnPossessionLoss : Bool) :
    ℕ → GameState → List DecisionStep
  | 0, _ => []
  | n + 1, state =>
    let st := step evaluate state
    match st.result with
    | none => [st]
    | some r =>
      if stopOnGoal ∧ r.result = ActionResult.goal then [st]
      else if stopOnPossessionLoss ∧ r.result = ActionResult.intercepted then [st]
      else st :: run evaluate stopOnGoal stopOnPossessionLoss n st.state_after

theorem run_length_le (evaluate : GameState → List ActionOption)
    (stopOnGoal stopOnPossessionLoss : Bool) :
    ∀ (n : ℕ) (state : GameState),
      (run evaluate stopOnGoal stopOnPossessionLoss n state).length ≤ n := by
  intro n
  induction n with
  | zero => intro state; simp [run]
  | succ k ih =>
    intro state
    simp only [run]
    rcases h : (step evaluate state).result with _ | r
    · simp
    · simp only []
      split_ifs <;> simp_all

/-- C9: `_move_defenders_toward_ball` maps each defender independently; the
step bound `PLAYER_SPEED * TIME_STEP * 0.5` is `2` m; a defender at most 1 m
from the ball keeps its position; and a farther defender moves straight
toward the ball by exactly `min 2 dist`, ending `dist - min 2 dist ≥ 0` from
the ball, so it never overshoots. -/
theorem C9_move_defenders (defenders : List Player) (ballPosition : ℝ × ℝ) (d : Player) :
    moveDefendersTowardBall defenders ballPosition =
      defenders.map (moveDefenderTowardBall ballPosition) ∧
    min (PLAYER_SPEED * TIME_STEP * 0.5) (planeDist d.position ballPosition) =
      min 2 (planeDist d.position ballPosition) ∧
    (¬ 1 < planeDist d.position ballPosition → moveDefenderTowardBall ballPosition d = d) ∧
    planeDist d.position (moveDefenderTowardBall ballPosition d).position =
      (if 1 < planeDist d.position ballPosition
       then min 2 (planeDist d.position ballPosition) else 0) ∧
    planeDist (moveDefenderTowardBall ballPosition d).position ballPosition =
      planeDist d.position ballPosition -
      (if 1 < planeDist d.position ballPosition
       then min 2 (planeDist d.position ballPosition) else 0) := by
  have hps : PLAYER_SPEED * TIME_STEP * 0.5 = (2 : ℝ) := by
    norm_num [PLAYER_SPEED, TIME_STEP]
  refine ⟨rfl, by rw [hps], fun h => by simp only [moveDefenderTowardBall, if_neg h], ?_, ?_⟩
  · by_cases h : 1 < planeDist d.position ballPosition
    · rw [if_pos h]
      have hD0 : (0 : ℝ) < planeDist d.position ballPosition := lt_trans one_pos h
      have hS : (ballPosition.1 - d.position.1) ^ 2 + (ballPosition.2 - d.position.2) ^ 2 =
          planeDist d.position ballPosition ^ 2 :=
        (Real.sq_sqrt (by positivity)).symm
      simp only [moveDefenderTowardBall, if_pos h, hps]
      apply planeDist_val (le_min (by norm_num) hD0.le)
      field_simp
      linear_combination (min 2 (planeDist d.position ballPosition)) ^ 2 * hS
    · rw [if_neg h]
      simp only [moveDefenderTowardBall, if_neg h]
      exact planeDist_val le_rfl (by ring)
  · by_cases h : 1 < planeDist d.position ballPosition
    · rw [if_pos h]
      have hD0 : (0 : ℝ) < planeDist d.position ballPosition := lt_trans one_pos h
      have hS : (ballPosition.1 - d.position.1) ^ 2 + (ballPosition.2 - d.position.2) ^ 2 =
          planeDist d.position ballPosition ^ 2 :=
        (Real.sq_sqrt (by positivity)).symm
      simp only [moveDefenderTowardBall, if_pos h, hps]
      apply planeDist_val
        (by linarith [min_le_right 2 (planeDist d.position ballPosition)])
      field_simp
      linear_combination (planeDist d.position ballPosition -
        min 2 (planeDist d.position ballPosition)) ^ 2 * hS
    · rw [if_neg h]
      simp only [moveDefenderTowardBall, if_neg h]
      rw [sub_zero]

/-- C10: with the evaluator yielding no actions for a state, `step` returns
the null decision step (no action, no result, state unchanged), `run`
appends exactly that one step and terminates, and `run` always returns at
most `max_steps` steps. The evaluator of the missing `state_scoring` module
is abstract. -/
theorem C10_step_run_no_actions (evaluate : GameState → List ActionOption)
    (state : GameState) (stopOnGoal stopOnPossessionLoss : Bool) (n : ℕ) :
    (evaluate state = [] →
      step evaluate state =
        { state_before := state, action_chosen := none, result := none,
          state_after := state } ∧
      run evaluate stopOnGoal stopOnPossessionLoss (n + 1) state =
        [{ state_before := state, action_chosen := none, result := none,
           state_after := state }]) ∧
    (run evaluate stopOnGoal stopOnPossessionLoss n state).length ≤ n := by
  refine ⟨fun h => ?_, run_length_le _ _ _ n state⟩
  have hstep : step evaluate state =
      { state_before := state, action_chosen := none, result := none,
        state_after := state } := by
    simp [step, decideAction, h]
  refine ⟨hstep, ?_⟩
  simp only [run, hstep]

theorem len2_ne_zero {s e : ℝ × ℝ} (h : 0 < planeDist s e) :
    (e.1 - s.1) ^ 2 + (e.2 - s.2) ^ 2 ≠ 0 := by
  intro h0
  rw [planeDist, h0, Real.sqrt_zero] at h
  exact lt_irrefl 0 h

theorem perpDist_at_target (s e : ℝ × ℝ) (hne : (e.1 - s.1) ^ 2 + (e.2 - s.2) ^ 2 ≠ 0) :
    perpendicularDistanceToLine e s e = 0 := by
  simp only [perpendicularDistanceToLine, if_neg hne]
  have ht : ((e.1 - s.1) * (e.1 - s.1) + (e.2 - s.2) * (e.2 - s.2)) /
      ((e.1 - s.1) ^ 2 + (e.2 - s.2) ^ 2) = 1 := by
    rw [div_eq_one_iff_eq hne]
    ring
  rw [ht, show min (1 : ℝ) (max 0 1) = 1 by norm_num]
  exact planeDist_val (r := 0) le_rfl (by ring)

theorem interceptsPass_eval (start target : ℝ × ℝ) (p : Player) (perp pd : ℝ)
    (hp : perpendicularDistanceToLine p.position start target = perp)
    (hd : planeDist start target = pd) :
    interceptsPass start target p ↔
      (REACTION_TIME + perp / PLAYER_SPEED < pd / PASS_SPEED * 0.8 ∧ perp < 3) := by
  unfold interceptsPass
  rw [hp, hd]

/-- C3 (amended): executing a pass whose target coincides with a defender
within the 3 m corridor returns `INTERCEPTED` — provided the pass is longer
than `75/16 m` (so that `REACTION_TIME < 0.8 × pass_time`; shorter passes to
a marked target succeed). The new carrier and ball position are those of the
first qualifying defender in list order, the new defender list is the old
attacker list unchanged, and the new attacker list is the old defender list
with each defender moved toward the interception point by the reactive-move
rule (not the raw old defender list). -/
theorem C3_pass_to_marked_defender (state : GameState) (action : ActionOption) (d : Player)
    (hty : action.action_type = ActionType.passForward ∨
      action.action_type = ActionType.passLateral ∨
      action.action_type = ActionType.passBackward)
    (hmem : d ∈ state.defenders)
    (hpos : d.position = action.target)
    (hfar : 75 / 16 < planeDist state.ball_position action.target) :
    ∃ interceptor,
      checkInterception state.ball_position action.target state.defenders =
        some interceptor ∧
      (execute state action).result = ActionResult.intercepted ∧
      (execute state action).new_state.ball_carrier = some interceptor ∧
      (execute state action).new_state.ball_position = interceptor.position ∧
      (execute state action).new_state.defenders = state.attackers ∧
      (execute state action).new_state.attackers =
        moveDefendersTowardBall state.defenders interceptor.position := by
  have hd0 : 0 < planeDist state.ball_position action.target := lt_trans (by norm_num) hfar
  have hperp : perpendicularDistanceToLine d.position state.ball_position action.target = 0 := by
    rw [hpos]
    exact perpDist_at_target _ _ (len2_ne_zero hd0)
  have hpred : interceptsPass state.ball_position action.target d := by
    rw [interceptsPass_eval _ _ _ _ _ hperp rfl]
    constructor
    · rw [REACTION_TIME, PLAYER_SPEED, PASS_SPEED]
      rw [show (0 : ℝ) / 8 = 0 by norm_num, add_zero]
      linarith
    · norm_num
  have hsome : (checkInterception state.ball_position action.target state.defenders).isSome := by
    rw [checkInterception, List.find?_isSome]
    exact ⟨d, hmem, decide_eq_true hpred⟩
  obtain ⟨interceptor, hi⟩ := Option.isSome_iff_exists.1 hsome
  refine ⟨interceptor, hi, ?_⟩
  have hexec : execute state action = executePass state action := by
    rcases hty with h | h | h <;> · unfold execute; rw [h]
  rw [hexec]
  simp [executePass, hi, createNewState]

/-- The passer in the counterexample scenarios. -/
def playerA1 : Player := { id := "A1", position := (0, 0), team := "attack" }

/-- A defender standing exactly on the target of a short pass. -/
def defenderD1 : Player := { id := "D1", position := (3, 0) }

/-- Scenario A: a 3 m pass aimed exactly at a defender. -/
def stateA : GameState :=
  { ball_position := (0, 0), ball_carrier := some playerA1, attackers := [playerA1],
    defenders := [defenderD1], timestamp := 0 }

/-- The 3 m pass of scenario A. -/
def actionA : ActionOption := { action_type := ActionType.passForward, target := (3, 0) }

/-- A far-off defender, 10 m from the pass line of scenario B. -/
def defenderD2B : Player := { id := "D2", position := (6, 10) }

/-- The defender on the target of the 6 m pass of scenario B. -/
def defenderD1B : Player := { id := "D1", position := (6, 0) }

/-- Scenario B: a 6 m pass aimed exactly at a defender, with a second
defender elsewhere. -/
def stateB : GameState :=
  { ball_position := (0, 0), ball_carrier := some playerA1, attackers := [playerA1],
    defenders := [defenderD2B, defenderD1B], timestamp := 0 }

/-- The 6 m pass of scenario B. -/
def actionB : ActionOption := { action_type := ActionType.passForward, target := (6, 0) }

theorem cex_checkInterception_A :
    checkInterception stateA.ball_position actionA.target stateA.defenders = none := by
  show checkInterception (0, 0) (3, 0) [defenderD1] = none
  have hperp : perpendicularDistanceToLine defenderD1.position (0, 0) (3, 0) = 0 :=
    perpDist_at_target _ _ (by norm_num [defenderD1])
  have hpd : planeDist ((0 : ℝ), (0 : ℝ)) ((3 : ℝ), (0 : ℝ)) = 3 :=
    planeDist_val (r := 3) (by norm_num) (by norm_num)
  have hfalse : ¬ interceptsPass (0, 0) (3, 0) defenderD1 := by
    rw [interceptsPass_eval _ _ _ _ _ hperp hpd]
    intro h1
    rw [REACTION_TIME, PLAYER_SPEED, PASS_SPEED] at h1
    have := h1.1
    norm_num at this
  have e1 : decide (interceptsPass (0, 0) (3, 0) defenderD1) = false := by
    simp only [decide_eq_false_iff_not]
    exact hfalse
  unfold checkInterception
  simp only [List.find?_cons, e1]
  rfl

theorem cex_checkInterception_B :
    checkInterception stateB.ball_position actionB.target stateB.defenders =
      some defenderD1B := by
  show checkInterception (0, 0) (6, 0) [defenderD2B, defenderD1B] = some defenderD1B
  have hperp2 : perpendicularDistanceToLine defenderD2B.position (0, 0) (6, 0) = 10 := by
    show perpendicularDistanceToLine (6, 10) (0, 0) (6, 0) = 10
    simp only [perpendicularDistanceToLine]
    rw [if_neg (by norm_num)]
    norm_num
    exact planeDist_val (r := 10) (by norm_num) (by norm_num)
  have hfalse2 : ¬ interceptsPass (0, 0) (6, 0) defenderD2B := by
    rw [interceptsPass_eval _ _ _ _ _ hperp2 rfl]
    intro h1
    have := h1.2
    norm_num at this
  have hperp1 : perpendicularDistanceToLine defenderD1B.position (0, 0) (6, 0) = 0 :=
    perpDist_at_target _ _ (by norm_num [defenderD1B])
  have hpd : planeDist ((0 : ℝ), (0 : ℝ)) ((6 : ℝ), (0 : ℝ)) = 6 :=
    planeDist_val (r := 6) (by norm_num) (by norm_num)
  have htrue1 : interceptsPass (0, 0) (6, 0) defenderD1B := by
    rw [interceptsPass_eval _ _ _ _ _ hperp1 hpd]
    rw [REACTION_TIME, PLAYER_SPEED, PASS_SPEED]
    norm_num
  have e2 : decide (interceptsPass (0, 0) (6, 0) defenderD2B) = false := by
    simp only [decide_eq_false_iff_not]
    exact hfalse2
  have e1 : decide (interceptsPass (0, 0) (6, 0) defenderD1B) = true := decide_eq_true htrue1
  unfold checkInterception
  simp only [List.find?_cons, e2, e1]

theorem cex_move_B :
    moveDefendersTowardBall stateB.defenders defenderD1B.position =
      [{ id := "D2", position := (6, 8), team := "defense" }, defenderD1B] := by
  show moveDefendersTowardBall [defenderD2B, defenderD1B] (6, 0) = _
  have hmove2 : moveDefenderTowardBall (6, 0) defenderD2B =
      { id := "D2", position := (6, 8), team := "defense" } := by
    have hpd : planeDist defenderD2B.position ((6 : ℝ), (0 : ℝ)) = 10 :=
      planeDist_val (r := 10) (by norm_num) (by norm_num [defenderD2B])
    simp only [moveDefenderTowardBall, hpd]
    rw [if_pos (by norm_num)]
    simp only [defenderD2B, PLAYER_SPEED, TIME_STEP]
    norm_num
  have hmove1 : moveDefenderTowardBall (6, 0) defenderD1B = defenderD1B := by
    have hpd : planeDist defenderD1B.position ((6 : ℝ), (0 : ℝ)) = 0 :=
      planeDist_val (r := 0) le_rfl (by norm_num [defenderD1B])
    simp only [moveDefenderTowardBall, hpd]
    rw [if_neg (by norm_num)]
  simp [moveDefendersTowardBall, hmove2, hmove1]

/-- C3 counterexample: (scenario A) a 3 m pass aimed exactly at a defender is
NOT intercepted — the executor returns `SUCCESS`, because the reaction time
`0.25 s` is not below `0.8 ×` the short pass time; (scenario B) when a pass
IS intercepted, the new attacker list is the old defender list with the far
defender moved 2 m toward the ball, not the old defender list itself. -/
theorem C3_counterexample :
    (execute stateA actionA).result = ActionResult.success ∧
    (execute stateA actionA).result ≠ ActionResult.intercepted ∧
    (execute stateB actionB).result = ActionResult.intercepted ∧
    (execute stateB actionB).new_state.attackers ≠ stateB.defenders := by
  have hexecA : execute stateA actionA = executePass stateA actionA := rfl
  have hexecB : execute stateB actionB = executePass stateB actionB := rfl
  have hA : (execute stateA actionA).result = ActionResult.success := by
    rw [hexecA]
    simp only [executePass, cex_checkInterception_A]
  have hB : (execute stateB actionB).new_state.attackers =
      [{ id := "D2", position := (6, 8), team := "defense" }, defenderD1B] := by
    rw [hexecB]
    simp only [executePass, cex_checkInterception_B, createNewState]
    exact cex_move_B
  refine ⟨hA, by rw [hA]; decide, ?_, ?_⟩
  · rw [hexecB]
    simp only [executePass, cex_checkInterception_B]
  · rw [hB]
    intro hcon
    have h2 := List.head_eq_of_cons_eq hcon
    have : ((6 : ℝ), (8 : ℝ)) = ((6 : ℝ), (10 : ℝ)) := by
      have h3 := congrArg Player.position h2
      simp only [defenderD2B] at h3
      exact h3
    have := congrArg Prod.snd this
    norm_num at this

/-- C3 witness: the amended theorem applied to scenario B, where the pass is
6 m long, yielding the interception by the defender on the target. -/
theorem C3_witness :
    ∃ interceptor,
      checkInterception stateB.ball_position actionB.target stateB.defenders =
        some interceptor ∧
      (execute stateB actionB).result = ActionResult.intercepted ∧
      (execute stateB actionB).new_state.ball_carrier = some interceptor ∧
      (execute stateB actionB).new_state.ball_position = interceptor.position ∧
      (execute stateB actionB).new_state.defenders = stateB.attackers ∧
      (execute stateB actionB).new_state.attackers =
        moveDefendersTowardBall stateB.defenders interceptor.position := by
  apply C3_pass_to_marked_defender stateB actionB defenderD1B
  · exact Or.inl rfl
  · show defenderD1B ∈ [defenderD2B, defenderD1B]
    simp
  · rfl
  · show (75 : ℝ) / 16 < planeDist (0, 0) (6, 0)
    rw [planeDist_val (r := 6) (by norm_num) (by norm_num)]
    norm_num

end Exec

end Football
